import Mathlib

/-!
Verification development for the DocuBot ingestion-and-retrieval pipeline
(notebook `src/notebooks/DocuBot.ipynb`).

The notebook code is shallowly embedded as pure Lean functions:

* the segmenter `split_input_to_chunks` delegates to the external
  `llama_index` SentenceSplitter with fixed parameters; its documented
  pipeline (paragraph separator, secondary sentence regex, token budget
  with overlap) is modelled here at the character level, with tokens
  modelled as space-separated words (a stand-in for the external
  deterministic tiktoken encoder);
* embedding vectors are modelled as lists of exact rationals (the real
  coordinates are floats; every claim below concerns equalities and
  order comparisons of distances, which the rational model represents);
* the `psycopg2.pool.SimpleConnectionPool` used by `DataStore` is
  modelled by counting idle and borrowed connections, following the
  library semantics of `getconn`/`putconn` (`getconn` raises
  `PoolError` when the pool is exhausted; `putconn` returns the
  connection to the idle set only while the idle set is below
  `minconn`, otherwise closes it);
* the PostgreSQL side is modelled by an explicit database state; the
  `ORDER BY embedding <-> q LIMIT 5` query of `retrieve` is given its
  SQL semantics as a relation, because the query has no secondary sort
  key and SQL leaves the relative order of rows with equal sort keys
  unspecified;
* Python exceptions become explicit error values; the
  `try/except/finally` blocks of the store operations are mirrored
  branch by branch, including the path where `getconn` itself raises
  (there the `finally` block reads the never-bound local `connection`,
  which in Python raises `UnboundLocalError`).
-/

namespace DocuBot

/-! ## Segmenter: model of `split_input_to_chunks` (notebook section 1.1)

The notebook constructs, on every call,
`SentenceSplitter(separator = " ", chunk_size = 300, chunk_overlap = 20,
paragraph_separator = "\n\n", secondary_chunking_regex = "[^,.;。]+[,.;。]?",
tokenizer = tiktoken gpt-3.5-turbo)` and applies it to the input text.
The splitter is an external deterministic library; we model its
documented behavior: split on paragraph breaks, split long paragraphs
at sentence-ending punctuation per the secondary regex, then greedily
pack pieces into chunks of at most `chunk_size` tokens carrying at most
`chunk_overlap` tokens of overlap between consecutive chunks. -/

/-- Sentence-ending delimiter characters of the secondary chunking regex
`[^,.;。]+[,.;。]?`. -/
def SEP_CHARS : List Char := [',', '.', ';', '。']

/-- Splits a character list into the words separated by spaces; models the
token stream of the (external, deterministic) tokenizer. -/
def wordsOf (cs : List Char) (acc : List Char) : List (List Char) :=
  match cs, acc with
  | [], a => if a.isEmpty then [] else [a.reverse]
  | c :: rest, a =>
    if c = ' ' then
      if a.isEmpty then wordsOf rest [] else a.reverse :: wordsOf rest []
    else wordsOf rest (c :: a)

/-- Token count of a piece of text, in the word-token model. -/
def tokenCount (cs : List Char) : Nat := (wordsOf cs []).length

/-- Splits on the paragraph separator `"\n\n"`. -/
def splitParasAux (cs : List Char) (acc : List Char) : List (List Char) :=
  match cs, acc with
  | [], a => [a.reverse]
  | '\n' :: '\n' :: rest, a => a.reverse :: splitParasAux rest []
  | c :: rest, a => splitParasAux rest (c :: a)

/-- Splits a paragraph at the delimiters of the secondary chunking regex:
each piece is a maximal run of non-delimiters followed by the delimiter
that ended it (the regex requires at least one non-delimiter character,
so a delimiter with nothing pending starts no piece). -/
def splitSentsAux (cs : List Char) (acc : List Char) : List (List Char) :=
  match cs, acc with
  | [], a => if a.isEmpty then [] else [a.reverse]
  | c :: rest, a =>
    if c ∈ SEP_CHARS then
      if a.isEmpty then splitSentsAux rest []
      else (c :: a).reverse :: splitSentsAux rest []
    else splitSentsAux rest (c :: a)

/-- Takes pieces from the front of a list while their total token count
stays within `budget`, stopping at the first piece that does not fit. -/
def takeBudget (budget : Nat) (ps : List (List Char)) : List (List Char) :=
  match ps with
  | [] => []
  | p :: rest =>
    if tokenCount p ≤ budget then p :: takeBudget (budget - tokenCount p) rest
    else []

/-- The suffix of the current chunk that is carried into the next chunk:
the longest tail of pieces whose total token count is at most `overlap`. -/
def overlapTail (overlap : Nat) (ps : List (List Char)) : List (List Char) :=
  (takeBudget overlap ps.reverse).reverse

/-- Joins pieces with a separator character list. -/
def joinCharLists (sep : List Char) (ps : List (List Char)) : List Char :=
  match ps with
  | [] => []
  | [x] => x
  | x :: xs => x ++ sep ++ joinCharLists sep xs

/-- State of the greedy chunk packer: finished chunks, the pieces of the
chunk under construction, and their token count. -/
structure PackSt where
  done : List (List (List Char))
  cur : List (List Char)
  curTok : Nat

/-- One step of the greedy packer: a piece joins the current chunk while
the token budget allows, otherwise the current chunk is closed and a new
one starts from the overlap tail of the closed chunk. -/
def packStep (size overlap : Nat) (st : PackSt) (p : List Char) : PackSt :=
  let t := tokenCount p
  if st.cur.isEmpty ∨ st.curTok + t ≤ size then
    { st with cur := st.cur ++ [p], curTok := st.curTok + t }
  else
    let keep := overlapTail overlap st.cur
    { done := st.done ++ [st.cur], cur := keep ++ [p],
      curTok := (keep.map tokenCount).sum + t }

/-- The splitter pipeline for given `chunk_size` and `chunk_overlap`
parameters: paragraphs, then sentence pieces for paragraphs over budget,
then greedy packing with overlap; empty pieces and empty chunks are
dropped, and the pieces of a chunk are joined with the configured
separator `" "`. -/
def splitWithParams (size overlap : Nat) (t : String) : List String :=
  let paras := splitParasAux t.data []
  let pieces := paras.foldr
    (fun p acc => (if tokenCount p ≤ size then [p] else splitSentsAux p []) ++ acc) []
  let pieces := pieces.filter (fun p => ¬ p.isEmpty)
  let st := pieces.foldl (packStep size overlap) ⟨[], [], 0⟩
  let chunksC := if st.cur.isEmpty then st.done else st.done ++ [st.cur]
  (chunksC.map (fun c => String.mk (joinCharLists [' '] c))).filter (fun s => s ≠ "")

/-- Model of the notebook function `split_input_to_chunks`: a fresh
splitter with `chunk_size = 300` and `chunk_overlap = 20` applied to the
input text. -/
def split_input_to_chunks (input_text : String) : List String :=
  splitWithParams 300 20 input_text

/-! ## Embeddings (notebook sections 1.2 and 1.3)

The notebook calls the external Vertex AI model
`textembedding-gecko@001`; the embedding service is a parameter
`embedF` of the functions below, returning either a vector or a raised
`EmbeddingServiceError`, modelled as `Except`. -/

/-- Embedding vectors; coordinates are modelled as exact rationals. -/
abbrev Vec := List ℚ

/-- The pydantic model `TextEmbedding` of the notebook. -/
structure TextEmbedding where
  text : String
  embedding : Vec
deriving DecidableEq

/-- Model of `get_text_embedding_pairs`: splits the text into chunks and
embeds each chunk in order, appending to the pair list; the first failed
embedding call aborts the whole computation, exactly as the raised
exception aborts the Python loop. -/
def get_text_embedding_pairs (embedF : String → Except String Vec)
    (text0 : String) : Except String (List TextEmbedding) :=
  (split_input_to_chunks text0).foldl
    (fun acc c => acc.bind (fun ps => (embedF c).map (fun v => ps ++ [⟨c, v⟩])))
    (Except.ok [])

/-! ## Connection pool (notebook `DataStore._get_connection_pool`)

Model of `psycopg2.pool.SimpleConnectionPool(1, 10, **db_params)`. The
library semantics: the constructor opens `minconn` idle connections;
`getconn` pops an idle connection if one exists, otherwise opens a new
connection unless `maxconn` connections are already borrowed, in which
case it raises `PoolError("connection pool exhausted")` immediately;
`putconn` puts the connection back into the idle set while the idle set
is smaller than `minconn` and closes it otherwise. The fields `borrows`
and `returns` count the successful `getconn` and `putconn` events of a
run. -/

structure PoolState where
  minconn : Nat
  maxconn : Nat
  available : Nat
  borrowed : Nat
  borrows : Nat
  returns : Nat
deriving DecidableEq

/-- Model of the `SimpleConnectionPool` constructor. -/
def SimpleConnectionPool (minc maxc : Nat) : PoolState :=
  { minconn := minc, maxconn := maxc, available := minc, borrowed := 0,
    borrows := 0, returns := 0 }

/-- Model of `getconn`: `none` is the immediately raised
`PoolError("connection pool exhausted")`. -/
def getconn (p : PoolState) : Option PoolState :=
  if 0 < p.available then
    some { p with available := p.available - 1, borrowed := p.borrowed + 1,
                  borrows := p.borrows + 1 }
  else if p.borrowed = p.maxconn then none
  else some { p with borrowed := p.borrowed + 1, borrows := p.borrows + 1 }

/-- Model of `putconn`. -/
def putconn (p : PoolState) : PoolState :=
  if p.available < p.minconn then
    { p with available := p.available + 1, borrowed := p.borrowed - 1,
             returns := p.returns + 1 }
  else
    { p with borrowed := p.borrowed - 1, returns := p.returns + 1 }

/-- Pool states reachable from the pool the notebook constructs,
`SimpleConnectionPool(1, 10)`, by borrowing and returning connections. -/
inductive PoolReachable : PoolState → Prop
  | init : PoolReachable (SimpleConnectionPool 1 10)
  | get {p p' : PoolState} : PoolReachable p → getconn p = some p' → PoolReachable p'
  | put {p : PoolState} : PoolReachable p → 0 < p.borrowed → PoolReachable (putconn p)

/-! ## Database state (notebook section 2, class `DataStore`) -/

/-- The class attribute `DATABASE_SCHEMA` (an insertion-ordered dict). -/
def DATABASE_SCHEMA : List (String × String) :=
  [("text_chunk", "varchar"), ("embedding", "vector(768)")]

/-- The class attribute `TABLE_NAME`. -/
def TABLE_NAME : String := "my_table"

/-- A stored row of `my_table`: the SERIAL primary key, the text chunk
and the embedding vector. -/
structure Row where
  id : Nat
  text_chunk : String
  embedding : Vec
deriving DecidableEq

/-- The state of `my_table` when it exists: its column list, its rows in
insertion order, and the next value of the SERIAL id sequence. -/
structure TableState where
  schema : List (String × String)
  rows : List Row
  nextId : Nat
deriving DecidableEq

/-- The visible database state: whether the `vector` extension is
enabled and the state of `my_table` if it exists. -/
structure DbState where
  vectorExt : Bool
  myTable : Option TableState
deriving DecidableEq

/-- The column list the creation query declares: the auto-incrementing
primary key followed by the configured schema columns. -/
def fullSchema : List (String × String) :=
  ("id", "SERIAL PRIMARY KEY") :: DATABASE_SCHEMA

/-- Semantics of `CREATE EXTENSION IF NOT EXISTS vector`. -/
def execCreateExtension (db : DbState) : DbState :=
  { db with vectorExt := true }

/-- Semantics of `DROP TABLE IF EXISTS my_table`: no error whether or
not the table exists. -/
def execDropTableIfExists (db : DbState) : DbState :=
  { db with myTable := none }

/-- Semantics of `CREATE TABLE IF NOT EXISTS my_table (id SERIAL PRIMARY
KEY, text_chunk varchar, embedding vector(768))`: creates an empty table
with a fresh id sequence, and is a no-op if the table exists. -/
def execCreateTableIfNotExists (db : DbState) : DbState :=
  match db.myTable with
  | some _ => db
  | none => { db with myTable := some ⟨fullSchema, [], 1⟩ }

/-- Semantics of the three-statement `table_creation_query` script of
`DataStore._create_table`, in statement order. -/
def runTableCreationScript (db : DbState) : DbState :=
  execCreateTableIfNotExists (execDropTableIfExists (execCreateExtension db))

/-- Semantics of the single bulk `INSERT INTO my_table (text_chunk,
embedding) VALUES %s` executed by `execute_values` over the whole data
list: all rows are appended in list order with consecutive SERIAL ids;
inserting into a missing table is a database error. -/
def insertRows (db : DbState) (data : List (String × Vec)) : Except String DbState :=
  match db.myTable with
  | none => Except.error ("relation " ++ TABLE_NAME ++ " does not exist")
  | some t =>
      Except.ok { db with myTable := some { t with
        rows := t.rows ++ data.enum.map (fun d => ⟨t.nextId + d.1, d.2.1, d.2.2⟩),
        nextId := t.nextId + data.length } }

/-- The rows of `my_table`, or `[]` if the table does not exist. -/
def tableRows (db : DbState) : List Row :=
  match db.myTable with
  | none => []
  | some t => t.rows

/-! ## Store operations (notebook `DataStore` methods)

Each method follows the same Python skeleton:

    try:
        connection = self.conn_pool.getconn()
        with connection:
            with connection.cursor() as cursor:
                ... run the query ...
    except Exception as e:
        logger.error(...)
        raise
    finally:
        self.conn_pool.putconn(connection)

Three consequences are mirrored exactly. First, if `getconn` itself
raises, the except clause logs and re-raises, but the finally clause
then evaluates the never-bound local `connection`, so Python raises
`UnboundLocalError` and the pool is left untouched. Second, on a query
error the `with connection` block rolls the transaction back, the error
is logged, the connection is returned by the finally clause, and the
original exception propagates unchanged (a bare `raise`). Third, on
success the transaction commits and the connection is returned.

Errors raised by database work are injected through the `inject`
parameter (for `ingest` and `create_table`) or through the `sqlReply`
parameter (for `retrieve`); the embedding service is the `embedF`
parameter. Info-level `logger.info` calls are not modelled; the `logs`
field records the `logger.error` messages, built exactly like the
corresponding Python f-strings. -/

/-- Python exception values reaching a store caller. The constructor
`storeOperationError` is the error type the specification describes; it
is declared here only so that statements can compare against it -- no
operation of this development ever produces it. -/
inductive PyErr where
  | dbError (msg : String)
  | embeddingError (msg : String)
  | unboundLocalError
  | storeOperationError (msg : String)
deriving DecidableEq

/-- Tests whether an optional exception is the store-specific wrapper
type described by the specification. -/
def isStoreOperationError (e : Option PyErr) : Bool :=
  match e with
  | some (PyErr.storeOperationError _) => true
  | _ => false

/-- The full state a store operation acts on. -/
structure StoreState where
  pool : PoolState
  db : DbState
  logs : List String
deriving DecidableEq

/-- Model of `DataStore._create_table`. -/
def create_table (inject : Option String) (s : StoreState) : StoreState × Option PyErr :=
  match getconn s.pool with
  | none =>
      ({ s with logs := s.logs ++
          ["Error in create table query: connection pool exhausted"] },
       some PyErr.unboundLocalError)
  | some p1 =>
      match inject with
      | some msg =>
          ({ s with pool := putconn p1,
                    logs := s.logs ++ ["Error in create table query: " ++ msg] },
           some (PyErr.dbError msg))
      | none =>
          ({ s with pool := putconn p1, db := runTableCreationScript s.db }, none)

/-- Model of `DataStore.ingest`: all chunk embeddings are produced first
(before any pool interaction), then the batch is written by one bulk
insert inside one transaction. -/
def ingest (embedF : String → Except String Vec) (inject : Option String)
    (text0 : String) (s : StoreState) : StoreState × Option PyErr :=
  match get_text_embedding_pairs embedF text0 with
  | Except.error e => (s, some (PyErr.embeddingError e))
  | Except.ok pairs =>
    let data_list := pairs.map (fun p => (p.text, p.embedding))
    match getconn s.pool with
    | none =>
        ({ s with logs := s.logs ++
            ["Error in update table query : connection pool exhausted"] },
         some PyErr.unboundLocalError)
    | some p1 =>
        match inject with
        | some msg =>
            ({ s with pool := putconn p1,
                      logs := s.logs ++ ["Error in update table query : " ++ msg] },
             some (PyErr.dbError msg))
        | none =>
            match insertRows s.db data_list with
            | Except.error msg =>
                ({ s with pool := putconn p1,
                          logs := s.logs ++ ["Error in update table query : " ++ msg] },
                 some (PyErr.dbError msg))
            | Except.ok db' =>
                ({ s with pool := putconn p1, db := db' }, none)

/-- Model of `DataStore.retrieve`. The embedding of the query happens
before the try block. The reply of the `SELECT ... ORDER BY ... LIMIT 5`
round-trip is the parameter `sqlReply`, because the row order the
database may choose is not a function of the state (see `retrieveRel`
below); an `Except.error` reply is a raised database error. -/
def retrieve (embedF : String → Except String Vec)
    (sqlReply : Except String (List String)) (query : String)
    (s : StoreState) : StoreState × Except PyErr (List String) :=
  match embedF query with
  | Except.error e => (s, Except.error (PyErr.embeddingError e))
  | Except.ok _ =>
    match getconn s.pool with
    | none =>
        ({ s with logs := s.logs ++
            ["Error in retrieval query : connection pool exhausted"] },
         Except.error PyErr.unboundLocalError)
    | some p1 =>
        match sqlReply with
        | Except.error msg =>
            ({ s with pool := putconn p1,
                      logs := s.logs ++ ["Error in retrieval query : " ++ msg] },
             Except.error (PyErr.dbError msg))
        | Except.ok chunks =>
            ({ s with pool := putconn p1 }, Except.ok chunks)

/-! ## Semantics of the retrieval query (notebook `DataStore.retrieve`)

The query is

    SELECT text_chunk FROM my_table
    ORDER BY embedding <-> %s LIMIT 5

where `<->` is the pgvector Euclidean distance operator. Comparisons of
Euclidean distances are exactly comparisons of squared distances, so the
model ranks by the squared distance `sqDist`, an exact rational. The
`ORDER BY` clause has no secondary sort key, and SQL leaves the relative
order of rows whose sort keys are equal unspecified; the semantics is
therefore a relation: a reply is valid when it is the text column of the
first five rows of some distance-sorted arrangement of the table. -/

/-- Squared Euclidean distance of two vectors. -/
def sqDist (u v : Vec) : ℚ :=
  ((u.zip v).map (fun p => (p.1 - p.2) * (p.1 - p.2))).sum

/-- The list is in non-decreasing order of distance to the query vector
(this is `List.Sorted`, spelled through `List.Pairwise` so the predicate
stays decidable on concrete inputs). -/
abbrev sortedByDist (q : Vec) (s : List Row) : Prop :=
  List.Pairwise (fun a b => sqDist a.embedding q ≤ sqDist b.embedding q) s

/-- Valid row lists the `ORDER BY ... LIMIT 5` query may produce for a
stored table and a query vector. -/
def retrieveRelRows (table : List Row) (q : Vec) (rows : List Row) : Prop :=
  ∃ s : List Row, s.Perm table ∧ sortedByDist q s ∧ rows = s.take 5

/-- Valid replies of the retrieval query: the text column of a valid row
list. -/
def retrieveRel (table : List Row) (q : Vec) (result : List String) : Prop :=
  ∃ rows : List Row, retrieveRelRows table q rows ∧ result = rows.map Row.text_chunk

/-- Inserts an element into a list sorted by the strict comparison `lt`,
before every element it does not strictly exceed; the resulting sort is
stable. -/
def insertLt {α : Type} (lt : α → α → Bool) (a : α) (l : List α) : List α :=
  match l with
  | [] => [a]
  | b :: bs => if lt b a then b :: insertLt lt a bs else a :: b :: bs

/-- Stable insertion sort by a strict comparison. -/
def insertionSortLt {α : Type} (lt : α → α → Bool) (l : List α) : List α :=
  match l with
  | [] => []
  | x :: xs => insertLt lt x (insertionSortLt lt xs)

/-- Modelled from the spec: the reply the claim of a stable
insertion-order tie-break predicts, namely the first five texts of the
table sorted by distance with a stable sort (rows at equal distance stay
in insertion order). -/
def claimedTieBreak (q : Vec) (table : List Row) : List String :=
  ((insertionSortLt
      (fun a b => decide (sqDist a.embedding q < sqDist b.embedding q))
      table).take 5).map Row.text_chunk

/-! ## Conversation loop (notebook section 4)

The loop body, with `send` the external `chat.send_message` (returning
the stripped text of the reply) and `retrieve` the store retrieval:

    query = input("User Query: ")
    if query == "quit":
        break
    model_input_1 = prompt_template.format(query="", context="\n".join(chat_history))
    response_1 = chat.send_message(model_input_1)
    updated_context = response_1.text.strip()
    similar_chunks = datastore.retrieve(query)
    updated_context += "\n".join(similar_chunks)
    model_input_2 = prompt_template.format(query=query, context=updated_context)
    response_2 = chat.send_message(model_input_2)
    print(...)
    chat_history.append(query)

Both external calls and the retrieval can raise; the loop has no
try/except, so a raised exception propagates out of the loop. -/

/-- Model of Python `str.strip()`: removes leading and trailing
whitespace. -/
def pyStrip (s : String) : String :=
  String.mk (((s.data.dropWhile Char.isWhitespace).reverse.dropWhile
    Char.isWhitespace).reverse)

/-- Model of Python `sep.join(items)`. -/
def joinWith (sep : String) (items : List String) : String :=
  match items with
  | [] => ""
  | [x] => x
  | x :: xs => x ++ sep ++ joinWith sep xs

/-- Model of `prompt_template.format(query=..., context=...)` for the
notebook template. -/
def prompt_template_format (query context : String) : String :=
  "Refer to the following context to answer this query: " ++ query ++
    "\n\nContext: " ++ context

/-- The observable outcome of one successful conversation turn. -/
structure Turn where
  contextSent : String
  modelInput2 : String
  answer : String
  newHistory : List String
deriving DecidableEq

/-- Model of the loop body for a non-sentinel query: an `Except.error`
is an exception raised by the chat service or by the retrieval, which
aborts the turn (nothing later in the body runs, in particular the query
is not appended to the history). -/
def conversationTurn (send : String → Except String String)
    (retrieveF : String → Except String (List String))
    (chat_history : List String) (query : String) : Except String Turn :=
  match send (prompt_template_format "" (joinWith "\n" chat_history)) with
  | Except.error e => Except.error e
  | Except.ok r1 =>
    let updated_context := pyStrip r1
    match retrieveF query with
    | Except.error e => Except.error e
    | Except.ok similar_chunks =>
      let ctx2 := updated_context ++ joinWith "\n" similar_chunks
      match send (prompt_template_format query ctx2) with
      | Except.error e => Except.error e
      | Except.ok r2 =>
          Except.ok ⟨ctx2, prompt_template_format query ctx2, pyStrip r2,
                     chat_history ++ [query]⟩

/-- How a conversation session ends. -/
inductive SessionEnd where
  | quitEnd
  | errored (e : String)
  | inputExhausted
deriving DecidableEq

/-- Model of the `while True` loop over a stream of user queries:
returns the final chat history, the printed answers, and how the session
ended. A raised exception terminates the whole session, because the loop
has no exception handler. -/
def runLoop (send : String → Except String String)
    (retrieveF : String → Except String (List String))
    (queries : List String) (history : List String) (answers : List String) :
    List String × List String × SessionEnd :=
  match queries with
  | [] => (history, answers, SessionEnd.inputExhausted)
  | q :: rest =>
    if q = "quit" then (history, answers, SessionEnd.quitEnd)
    else
      match conversationTurn send retrieveF history q with
      | Except.error e => (history, answers, SessionEnd.errored e)
      | Except.ok t => runLoop send retrieveF rest t.newHistory (answers ++ [t.answer])

/-- The Answer-step context actually produced by a turn on history
`["Q1"]` with query `"Q2"`, if the turn succeeds. -/
def actualAnswerContext (send : String → Except String String)
    (retrieveF : String → Except String (List String)) : Option String :=
  (conversationTurn send retrieveF ["Q1"] "Q2").toOption.map Turn.contextSent

/-- Modelled from the spec: the Answer-step context the claim predicts
for history `["Q1"]` and query `"Q2"`: the refreshed context, followed
by a newline, followed by the newline-joined retrieved chunks. -/
def claimedAnswerContext (send : String → Except String String)
    (retrieveF : String → Except String (List String)) : Option String :=
  match send (prompt_template_format "" (joinWith "\n" ["Q1"])), retrieveF "Q2" with
  | Except.ok r1, Except.ok chunks =>
      some (pyStrip r1 ++ "\n" ++ joinWith "\n" chunks)
  | _, _ => none

/-! ## Concrete states used by witnesses and counterexamples -/

/-- The store state right after `DataStore.__init__` builds the pool and
before any operation: fresh pool `SimpleConnectionPool(1, 10)`, no
extension, no table, no error logs. -/
def st0 : StoreState :=
  { pool := SimpleConnectionPool 1 10, db := ⟨false, none⟩, logs := [] }

/-- An embedding service that answers every request with the vector
`[1]`. -/
def okEmbed : String → Except String Vec := fun _ => Except.ok [1]

/-- An embedding service whose requests all fail. -/
def badEmbed : String → Except String Vec := fun _ => Except.error "svc down"

/-- Relation between the pool component of the state before and after a
store operation: the borrowed count is restored, the pool bounds are
untouched, and the operation either borrowed no connection, or borrowed
exactly one and returned it exactly once. -/
def balancedPool (p q : PoolState) : Prop :=
  q.borrowed = p.borrowed ∧ q.minconn = p.minconn ∧ q.maxconn = p.maxconn ∧
  ((q.borrows = p.borrows ∧ q.returns = p.returns) ∨
   (q.borrows = p.borrows + 1 ∧ q.returns = p.returns + 1))

/-- The rows one `ingest` batch adds for a given pair list: every pair,
in order, with consecutive SERIAL ids starting at the table id sequence. -/
def batchRows (db : DbState) (pairs : List TextEmbedding) : List Row :=
  let n := match db.myTable with
    | none => 1
    | some t => t.nextId
  (pairs.map (fun p => (p.text, p.embedding))).enum.map
    (fun d => ⟨n + d.1, d.2.1, d.2.2⟩)

/-- The complete batch `ingest` is asked to persist for a text: the rows
of all chunk-embedding pairs, or `[]` when the embedding stage fails. -/
def ingestBatch (embedF : String → Except String Vec) (text0 : String)
    (db : DbState) : List Row :=
  match get_text_embedding_pairs embedF text0 with
  | Except.error _ => []
  | Except.ok pairs => batchRows db pairs

/-! ## Helper lemmas -/

/-- Characterization of pool exhaustion: `getconn` raises exactly when
no idle connection exists and the maximum number of connections is
already borrowed. -/
theorem getconn_eq_none_iff (p : PoolState) :
    getconn p = none ↔ p.available = 0 ∧ p.borrowed = p.maxconn := by
  unfold getconn
  split_ifs with h1 h2 <;> simp <;> omega

/-- A successful `getconn` preserves the configured pool bounds. -/
theorem getconn_bounds {p p' : PoolState} (h : getconn p = some p') :
    p'.minconn = p.minconn ∧ p'.maxconn = p.maxconn := by
  unfold getconn at h
  split_ifs at h <;> (injection h with h; subst h; exact ⟨rfl, rfl⟩)

/-- A pool state is balanced with itself. -/
theorem balancedPool_refl (p : PoolState) : balancedPool p p :=
  ⟨rfl, rfl, rfl, Or.inl ⟨rfl, rfl⟩⟩

/-- Borrowing one connection and then returning it restores the
borrowed count and performs exactly one return for the one borrow. -/
theorem balancedPool_put_get {p p1 : PoolState} (h : getconn p = some p1) :
    balancedPool p (putconn p1) := by
  unfold getconn at h
  split_ifs at h <;>
    (injection h with h; subst h; unfold putconn; split_ifs <;>
      exact ⟨by simp, rfl, rfl, Or.inr ⟨rfl, rfl⟩⟩)

/-- After returning a connection to a pool with a positive configured
minimum, an acquisition succeeds (there is always an idle connection or
room below the maximum). -/
theorem getconn_putconn_isSome (p : PoolState) (h : 1 ≤ p.minconn) :
    (getconn (putconn p)).isSome := by
  unfold putconn getconn
  split_ifs <;> simp_all

/-! ## Claim theorems -/

/-- C8: segmentation is deterministic: for every input text, two
invocations of the splitter with the same fixed chunk-size and overlap
parameters produce identical chunk sequences. The embedded splitter is a
pure function of the text and the two parameters: the source builds the
splitter from fixed constructor arguments and a fixed deterministic
tokenizer and reads no other state, so any two invocations denote the
same function, and `split_input_to_chunks` is that function at the fixed
parameters 300 and 20. -/
theorem C8_split_deterministic (size overlap : Nat) (text0 : String) :
    splitWithParams size overlap text0 = splitWithParams size overlap text0 ∧
    split_input_to_chunks text0 = splitWithParams 300 20 text0 :=
  ⟨rfl, rfl⟩

/-- C10: during `ingest`, all chunks are embedded before any database
connection is borrowed; if the embedding stage fails, the raised error
propagates with the whole store state unchanged: the pool is untouched
(in particular its borrow counter, so no connection was acquired), the
database is untouched, and no log is written. -/
theorem C10_embed_failure_untouched (embedF : String → Except String Vec)
    (inject : Option String) (text0 : String) (s : StoreState) (e : String)
    (h : get_text_embedding_pairs embedF text0 = Except.error e) :
    ingest embedF inject text0 s = (s, some (PyErr.embeddingError e)) := by
  simp [ingest, h]

/-- Witness for C10 at a concrete input: a failing embedding service, a
one-chunk text and the fresh store state. -/
theorem C10_witness :
    get_text_embedding_pairs badEmbed "hello" = Except.error "svc down" ∧
    ingest badEmbed none "hello" st0 = (st0, some (PyErr.embeddingError "svc down")) :=
  ⟨rfl, C10_embed_failure_untouched badEmbed none "hello" st0 "svc down" rfl⟩

/-- C1, counterexample: the claim states that for history `["Q1"]` and
query `"Q2"` the Answer-step context is the ContextRefresh result,
followed by a newline, followed by the newline-joined retrieved chunks.
The loop body concatenates the joined chunks directly onto the refreshed
context with no separating newline (`updated_context +=
"\n".join(similar_chunks)`), so with a chat service answering `"R"` and
chunks `["A", "B"]` the context actually sent is `"RA\nB"` while the
claim predicts `"R\nA\nB"`. -/
theorem C1_counterexample :
    actualAnswerContext (fun _ => Except.ok "R") (fun _ => Except.ok ["A", "B"]) ≠
      claimedAnswerContext (fun _ => Except.ok "R") (fun _ => Except.ok ["A", "B"]) := by
  decide

/-- C1, amended: for a turn with history `["Q1"]` and non-sentinel query
`"Q2"` in which all service calls succeed, the context passed to the
Answer-step chat call is the ContextRefresh result directly concatenated
with the newline-joined retrieved chunks (no separating newline), and
after the turn the history is `["Q1", "Q2"]` (the raw query is appended,
never the answer). -/
theorem C1_turn_context_and_history (send : String → Except String String)
    (retrieveF : String → Except String (List String)) (r1 r2 : String)
    (chunks : List String)
    (h1 : send (prompt_template_format "" (joinWith "\n" ["Q1"])) = Except.ok r1)
    (h2 : retrieveF "Q2" = Except.ok chunks)
    (h3 : send (prompt_template_format "Q2" (pyStrip r1 ++ joinWith "\n" chunks)) =
      Except.ok r2) :
    conversationTurn send retrieveF ["Q1"] "Q2" =
      Except.ok ⟨pyStrip r1 ++ joinWith "\n" chunks,
                 prompt_template_format "Q2" (pyStrip r1 ++ joinWith "\n" chunks),
                 pyStrip r2, ["Q1", "Q2"]⟩ := by
  simp [conversationTurn, h1, h2, h3]

/-- Witness for the amended C1 at a concrete chat service and store. -/
theorem C1_witness :
    conversationTurn (fun _ => Except.ok "R") (fun _ => Except.ok ["A", "B"])
        ["Q1"] "Q2" =
      Except.ok ⟨pyStrip "R" ++ joinWith "\n" ["A", "B"],
                 prompt_template_format "Q2" (pyStrip "R" ++ joinWith "\n" ["A", "B"]),
                 pyStrip "R", ["Q1", "Q2"]⟩ :=
  C1_turn_context_and_history (fun _ => Except.ok "R") (fun _ => Except.ok ["A", "B"])
    "R" "R" ["A", "B"] rfl rfl rfl

/-- C7, counterexample: the claim states that a retrieval or chat
failure aborts only the current turn and the loop continues to accept
the next query. With a failing chat service and the query stream
`["Q1", "Q2", "quit"]`, the session ends with the propagated error on
the first turn: the second query is never processed, no answer is
printed, the sentinel is never reached, and the history stays empty. -/
theorem C7_counterexample :
    runLoop (fun _ => Except.error "chat down") (fun _ => Except.ok [])
        ["Q1", "Q2", "quit"] [] [] = ([], [], SessionEnd.errored "chat down") ∧
    (runLoop (fun _ => Except.error "chat down") (fun _ => Except.ok [])
        ["Q1", "Q2", "quit"] [] []).2.2 ≠ SessionEnd.quitEnd := by
  exact ⟨by decide, by decide⟩

/-- C7, amended: a retrieval or chat failure during a conversation turn
terminates the whole session: the loop has no exception handler, so the
error propagates, the remaining queries are not processed, no further
answer is produced, and the chat history is left unmodified for that
turn (the failing query is not appended). -/
theorem C7_failure_ends_session (send : String → Except String String)
    (retrieveF : String → Except String (List String))
    (history answers rest : List String) (q e : String)
    (hq : q ≠ "quit")
    (hfail : conversationTurn send retrieveF history q = Except.error e) :
    runLoop send retrieveF (q :: rest) history answers =
      (history, answers, SessionEnd.errored e) := by
  simp [runLoop, hq, hfail]

/-- Witness for the amended C7 at a concrete failing chat service. -/
theorem C7_witness :
    runLoop (fun _ => Except.error "chat down") (fun _ => Except.ok [])
        ["Q1", "quit"] [] [] = ([], [], SessionEnd.errored "chat down") :=
  C7_failure_ends_session (fun _ => Except.error "chat down") (fun _ => Except.ok [])
    [] [] ["quit"] "Q1" "chat down" (by decide) rfl

/-- C2, counterexample: the claim states that when all pooled
connections are borrowed, a further acquisition blocks until a
connection is returned and never fails immediately. The pool is a
`SimpleConnectionPool(1, 10)`, whose `getconn` raises
`PoolError("connection pool exhausted")` immediately: after ten
acquisitions from the initial pool (a reachable state), the eleventh
`getconn` returns the raised error, not a blocked wait. -/
theorem C2_counterexample :
    PoolReachable ⟨1, 10, 0, 10, 10, 0⟩ ∧ getconn ⟨1, 10, 0, 10, 10, 0⟩ = none := by
  constructor
  · have h0 : PoolReachable (SimpleConnectionPool 1 10) := PoolReachable.init
    have h1 : PoolReachable ⟨1, 10, 0, 1, 1, 0⟩ := PoolReachable.get h0 (by decide)
    have h2 : PoolReachable ⟨1, 10, 0, 2, 2, 0⟩ := PoolReachable.get h1 (by decide)
    have h3 : PoolReachable ⟨1, 10, 0, 3, 3, 0⟩ := PoolReachable.get h2 (by decide)
    have h4 : PoolReachable ⟨1, 10, 0, 4, 4, 0⟩ := PoolReachable.get h3 (by decide)
    have h5 : PoolReachable ⟨1, 10, 0, 5, 5, 0⟩ := PoolReachable.get h4 (by decide)
    have h6 : PoolReachable ⟨1, 10, 0, 6, 6, 0⟩ := PoolReachable.get h5 (by decide)
    have h7 : PoolReachable ⟨1, 10, 0, 7, 7, 0⟩ := PoolReachable.get h6 (by decide)
    have h8 : PoolReachable ⟨1, 10, 0, 8, 8, 0⟩ := PoolReachable.get h7 (by decide)
    have h9 : PoolReachable ⟨1, 10, 0, 9, 9, 0⟩ := PoolReachable.get h8 (by decide)
    exact PoolReachable.get h9 (by decide)
  · decide

/-- C2, amended: the pool is bounded by the configured minimum 1 and
maximum 10: every reachable pool state keeps those bounds, never holds
more than 10 connections in total, and an acquisition fails immediately
with a pool-exhausted error exactly when no connection is idle and all
10 are borrowed (instead of blocking until one is returned). -/
theorem C2_pool_bounds (p : PoolState) (h : PoolReachable p) :
    p.minconn = 1 ∧ p.maxconn = 10 ∧ p.available + p.borrowed ≤ 10 ∧
    (getconn p = none ↔ p.available = 0 ∧ p.borrowed = 10) := by
  induction h with
  | init => decide
  | get hp hg ih =>
      obtain ⟨hmin, hmax, hsum, _⟩ := ih
      unfold getconn at hg
      split_ifs at hg with h1 h2 <;> injection hg with hg <;> subst hg <;>
        refine ⟨hmin, hmax, by simp; omega, ?_⟩ <;>
        rw [getconn_eq_none_iff] <;> simp [hmax]
  | put hp hb ih =>
      obtain ⟨hmin, hmax, hsum, _⟩ := ih
      unfold putconn
      split_ifs with h1 <;>
        refine ⟨hmin, hmax, by simp; omega, ?_⟩ <;>
        rw [getconn_eq_none_iff] <;> simp [hmax]

/-- Witness for the amended C2 at the initial pool state. -/
theorem C2_witness :
    (SimpleConnectionPool 1 10).minconn = 1 ∧
    (SimpleConnectionPool 1 10).maxconn = 10 ∧
    (SimpleConnectionPool 1 10).available + (SimpleConnectionPool 1 10).borrowed ≤ 10 ∧
    (getconn (SimpleConnectionPool 1 10) = none ↔
      (SimpleConnectionPool 1 10).available = 0 ∧
        (SimpleConnectionPool 1 10).borrowed = 10) :=
  C2_pool_bounds (SimpleConnectionPool 1 10) PoolReachable.init

/-- C4: every store operation (table creation, ingest, retrieve), on
every exit path, leaves the borrowed count of the pool as it found it
and performs exactly one return for the single connection it borrowed,
or no return when it borrowed none; no connection is leaked or returned
twice, including on the path where the acquisition itself fails (there
the finally clause raises on the unbound local and the pool is left
untouched). -/
theorem C4_connection_balance (inject : Option String) (s : StoreState)
    (embedF : String → Except String Vec) (text0 query : String)
    (sqlReply : Except String (List String)) :
    balancedPool s.pool (create_table inject s).1.pool ∧
    balancedPool s.pool (ingest embedF inject text0 s).1.pool ∧
    balancedPool s.pool (retrieve embedF sqlReply query s).1.pool := by
  refine ⟨?_, ?_, ?_⟩
  · unfold create_table
    cases hg : getconn s.pool with
    | none => exact balancedPool_refl _
    | some p1 =>
      cases inject with
      | none => exact balancedPool_put_get hg
      | some msg => exact balancedPool_put_get hg
  · unfold ingest
    cases hp : get_text_embedding_pairs embedF text0 with
    | error e => exact balancedPool_refl _
    | ok pairs =>
      dsimp only
      cases hg : getconn s.pool with
      | none => exact balancedPool_refl _
      | some p1 =>
        dsimp only
        cases inject with
        | some msg => exact balancedPool_put_get hg
        | none =>
          dsimp only
          cases hi : insertRows s.db (List.map (fun p => (p.text, p.embedding)) pairs) with
          | error m => exact balancedPool_put_get hg
          | ok db2 => exact balancedPool_put_get hg
  · unfold retrieve
    cases hq : embedF query with
    | error e => exact balancedPool_refl _
    | ok qv =>
      cases hg : getconn s.pool with
      | none => exact balancedPool_refl _
      | some p1 =>
        cases sqlReply with
        | error msg => exact balancedPool_put_get hg
        | ok chunks => exact balancedPool_put_get hg

/-- C5: ingest is all-or-nothing at the batch level: the complete list
of chunk-embedding pairs is produced first, then written by a single
bulk insert in one transaction; after the call the table rows are either
exactly the old rows (whenever any step failed, or nothing was to do) or
the old rows followed by the entire batch. -/
theorem C5_ingest_all_or_nothing (embedF : String → Except String Vec)
    (inject : Option String) (text0 : String) (s : StoreState) :
    tableRows (ingest embedF inject text0 s).1.db =
      (if (ingest embedF inject text0 s).2 = none
       then tableRows s.db ++ ingestBatch embedF text0 s.db
       else tableRows s.db) := by
  unfold ingest
  cases hp : get_text_embedding_pairs embedF text0 with
  | error e => simp
  | ok pairs =>
    dsimp only
    cases hg : getconn s.pool with
    | none => simp
    | some p1 =>
      dsimp only
      cases inject with
      | some msg => simp
      | none =>
        dsimp only
        cases hi : insertRows s.db (List.map (fun p => (p.text, p.embedding)) pairs) with
        | error m => simp
        | ok db2 =>
          unfold insertRows at hi
          cases ht : s.db.myTable with
          | none => rw [ht] at hi; exact absurd hi (by simp)
          | some t =>
            rw [ht] at hi
            injection hi with hi
            subst hi
            simp [tableRows, ingestBatch, hp, batchRows, ht]

/-- C6, counterexample: the claim states that a database error during a
store operation propagates to the caller as a `StoreOperationError`. The
except clauses perform a bare `raise` after logging, and no
`StoreOperationError` class exists in the code, so the raw database
exception itself reaches the caller: injecting the database error
`"boom"` into `ingest` on the fresh store yields exactly that raw error,
which is not the store-specific wrapper type. -/
theorem C6_counterexample :
    (ingest okEmbed (some "boom") "hello" st0).2 = some (PyErr.dbError "boom") ∧
    isStoreOperationError (ingest okEmbed (some "boom") "hello" st0).2 = false := by
  exact ⟨rfl, rfl⟩

/-- C6, amended: every database error raised during table creation,
ingest or retrieve is logged with a message naming the failing query and
carrying the exception text, and the exception that propagates to the
caller is the raw database exception itself, re-raised unchanged (the
code defines no store-specific error type). -/
theorem C6_raw_error_logged_and_reraised (s : StoreState) (msg : String)
    (embedF : String → Except String Vec) (text0 q : String)
    (pairs : List TextEmbedding) (qv : Vec)
    (hacq : (getconn s.pool).isSome)
    (hpairs : get_text_embedding_pairs embedF text0 = Except.ok pairs)
    (hq : embedF q = Except.ok qv) :
    ((create_table (some msg) s).2 = some (PyErr.dbError msg) ∧
     (create_table (some msg) s).1.logs =
       s.logs ++ ["Error in create table query: " ++ msg]) ∧
    ((ingest embedF (some msg) text0 s).2 = some (PyErr.dbError msg) ∧
     (ingest embedF (some msg) text0 s).1.logs =
       s.logs ++ ["Error in update table query : " ++ msg]) ∧
    ((retrieve embedF (Except.error msg) q s).2 = Except.error (PyErr.dbError msg) ∧
     (retrieve embedF (Except.error msg) q s).1.logs =
       s.logs ++ ["Error in retrieval query : " ++ msg]) := by
  obtain ⟨p1, hg⟩ := Option.isSome_iff_exists.mp hacq
  refine ⟨?_, ?_, ?_⟩ <;> simp [create_table, ingest, retrieve, hg, hpairs, hq]

/-- Witness for the amended C6 at the fresh store with an injected
database error. -/
theorem C6_witness :
    (ingest okEmbed (some "boom") "hello" st0).2 = some (PyErr.dbError "boom") ∧
    (ingest okEmbed (some "boom") "hello" st0).1.logs =
      st0.logs ++ ["Error in update table query : " ++ "boom"] := by
  have h := C6_raw_error_logged_and_reraised st0 "boom" okEmbed "hello" "x"
    [⟨"hello", [1]⟩] [1] (by decide) rfl rfl
  exact h.2.1

/-- C9: schema initialization is idempotent under the
destructive-recreate policy: running the table-creation operation twice
in succession raises no error either time, the database state after the
second run equals the state after the first, and the table is present
with the declared schema (the auto-incrementing primary key followed by
the configured columns) and zero rows. -/
theorem C9_create_table_idempotent (s : StoreState)
    (hmin : 1 ≤ s.pool.minconn) (hacq : (getconn s.pool).isSome) :
    (create_table none s).2 = none ∧
    (create_table none (create_table none s).1).2 = none ∧
    (create_table none (create_table none s).1).1.db = (create_table none s).1.db ∧
    (create_table none s).1.db.myTable = some ⟨fullSchema, [], 1⟩ ∧
    (create_table none s).1.db.vectorExt = true := by
  obtain ⟨p1, hg⟩ := Option.isSome_iff_exists.mp hacq
  have hb := getconn_bounds hg
  have h2 : (getconn (putconn p1)).isSome :=
    getconn_putconn_isSome p1 (by rw [hb.1]; exact hmin)
  obtain ⟨p2, hg2⟩ := Option.isSome_iff_exists.mp h2
  simp [create_table, hg, hg2, runTableCreationScript, execCreateExtension,
    execDropTableIfExists, execCreateTableIfNotExists]

/-- Witness for C9 at the fresh store state. -/
theorem C9_witness :
    (create_table none st0).2 = none ∧
    (create_table none (create_table none st0).1).2 = none ∧
    (create_table none (create_table none st0).1).1.db = (create_table none st0).1.db ∧
    (create_table none st0).1.db.myTable = some ⟨fullSchema, [], 1⟩ ∧
    (create_table none st0).1.db.vectorExt = true :=
  C9_create_table_idempotent st0 (by decide) (by decide)

/-- C3, counterexample: the claim states that rows at equal distance are
ranked with the earlier-inserted row first (a stable insertion-order
tie-break). The retrieval query orders by the distance operator alone,
with no secondary sort key, so the relative order of equal-distance rows
is unspecified: for a table of two rows at the same distance from the
query vector, the reply listing the later-inserted row first is a valid
reply of the query, yet the claimed tie-break predicts the opposite
order. -/
theorem C3_counterexample :
    retrieveRel [⟨1, "A", []⟩, ⟨2, "B", []⟩] [] ["B", "A"] ∧
    claimedTieBreak [] [⟨1, "A", []⟩, ⟨2, "B", []⟩] = ["A", "B"] ∧
    (["B", "A"] : List String) ≠ ["A", "B"] := by
  refine ⟨⟨[⟨2, "B", []⟩, ⟨1, "A", []⟩],
          ⟨[⟨2, "B", []⟩, ⟨1, "A", []⟩],
           List.Perm.swap (⟨1, "A", []⟩ : Row) (⟨2, "B", []⟩ : Row) [], by decide, rfl⟩, rfl⟩,
         by decide, by decide⟩

/-- C3, amended: every valid reply of the retrieval query consists of at
most five stored rows (exactly `min 5 n` of the `n` stored rows), in
non-decreasing order of distance to the query embedding, and the
returned rows are nearest ones: every stored row left out is at least as
far from the query as every returned row. The relative order of rows at
equal distance is not determined by the query (see the counterexample). -/
theorem C3_retrieval_ordering (table : List Row) (q : Vec) (rows : List Row)
    (h : retrieveRelRows table q rows) :
    rows.length = min 5 table.length ∧
    sortedByDist q rows ∧
    ∃ rest : List Row, (rows ++ rest).Perm table ∧
      ∀ a ∈ rows, ∀ b ∈ rest,
        sqDist a.embedding q ≤ sqDist b.embedding q := by
  obtain ⟨s, hperm, hsort, hrows⟩ := h
  subst hrows
  refine ⟨?_, ?_, s.drop 5, ?_, ?_⟩
  · rw [List.length_take, hperm.length_eq]
  · exact hsort.sublist (List.take_sublist 5 s)
  · rw [List.take_append_drop]; exact hperm
  · intro a ha b hb
    have hps : (s.take 5 ++ s.drop 5).Pairwise
        (fun a b => sqDist a.embedding q ≤ sqDist b.embedding q) := by
      rw [List.take_append_drop]; exact hsort
    exact (List.pairwise_append.mp hps).2.2 a ha b hb

/-- Witness for the amended C3 at a concrete one-row table. -/
theorem C3_witness :
    retrieveRelRows [⟨1, "A", []⟩] [] [⟨1, "A", []⟩] ∧
    ([⟨1, "A", []⟩] : List Row).length = min 5 ([⟨1, "A", []⟩] : List Row).length ∧
    sortedByDist [] [⟨1, "A", []⟩] ∧
    ∃ rest : List Row, (([⟨1, "A", []⟩] : List Row) ++ rest).Perm [⟨1, "A", []⟩] ∧
      ∀ a ∈ ([⟨1, "A", []⟩] : List Row), ∀ b ∈ rest,
        sqDist a.embedding [] ≤ sqDist b.embedding [] := by
  have hrel : retrieveRelRows [⟨1, "A", []⟩] [] [⟨1, "A", []⟩] :=
    ⟨[⟨1, "A", []⟩], List.Perm.refl _, by decide, rfl⟩
  exact ⟨hrel, C3_retrieval_ordering [⟨1, "A", []⟩] [] [⟨1, "A", []⟩] hrel⟩

end DocuBot
